import Mathlib

/-!
# Shallow embedding of the `BigNumber` decimal type (src/src/lib/bigint.ts)

The TypeScript class `BigNumber` stores a sign flag (`_sign`), the integer
magnitude as a decimal string (`_value`) and the fractional digits as a
string (`_decimal`).  All arithmetic is done by converting those strings to
arbitrary-precision integers (`BigInt(...)`) and back to strings.  This file
embeds the class as a Lean structure over `String`, with the JavaScript
string/number primitives the source relies on modelled explicitly:

* `jsStrToInt?` models the behaviour of `Number(...)`/`BigInt(...)` on the
  strings that reach the private constructor (optionally `-`-signed digit
  strings, where the empty string converts to `0` and a bare `-` is NaN).
* `jsParseInt?` models `Number.parseInt` (optional sign, maximal leading
  digit prefix, `none` for NaN).
* `splitOnChar` models `String.prototype.split` with a one-character
  separator, `replaceFirstChar` models `String.prototype.replace` with a
  one-character pattern (JavaScript replaces only the first occurrence).
* `padEnd` models `String.prototype.padEnd`.

Every definition is a direct translation of the method of the same name in
the source file; comments note each place where the translation duplicates a
local variable of the source or where a code path is unreachable from the
inputs exercised here.
-/

/-- The characters of a decimal digit, as a numeric value.  Models
`Number.parseInt` applied to a single digit character: `some` of the value
for `'0'`–`'9'`, `none` (NaN) otherwise. -/
def digitVal? (c : Char) : Option Nat :=
  if c.isDigit then some (c.toNat - 48) else none

/-- Numeric value of a list of decimal digit characters (most significant
first), as used by `BigInt("...")` on an all-digit string. -/
def digitsToNat (l : List Char) : Nat :=
  l.foldl (fun a c => a * 10 + (c.toNat - 48)) 0

/-- Models `Number(...)` / `BigInt(...)` on the strings that reach the
`BigNumber` constructor: the empty string converts to `0`, an optional
leading `-` followed by at least one digit converts to the signed value, and
everything else is NaN / a conversion failure (`none`).  The source checks
`Number.isNaN(Number(s))` and then converts with `BigInt(s)`; on the
sign-digit strings produced by `fromString`, `fromBigInt` and the arithmetic
methods the two agree, and both are modelled by this single function. -/
def jsStrToInt? (s : String) : Option Int :=
  match s.toList with
  | [] => some 0
  | '-' :: rest =>
    if rest.isEmpty then none
    else if rest.all Char.isDigit then some (-(digitsToNat rest : Int)) else none
  | l => if l.all Char.isDigit then some ((digitsToNat l : Int)) else none

/-- `BigInt` conversion of a field of an already-constructed `BigNumber`
(always an optionally signed digit string in the paths verified here), with
`0` as the (unreachable) fallback. -/
def jsBigIntD (s : String) : Int :=
  (jsStrToInt? s).getD 0

/-- Maximal leading digit prefix of a character list, `none` when there is no
leading digit.  Helper for `jsParseInt?`. -/
def leadingNat? (l : List Char) : Option Nat :=
  let ds := l.takeWhile Char.isDigit
  if ds.isEmpty then none else some (digitsToNat ds)

/-- Models `Number.parseInt` on the exponent strings produced by
`widenScientificNotation` in the source: optional sign, then the maximal
leading run of digits; `none` models NaN. -/
def jsParseInt? : List Char → Option Int
  | '-' :: rest => (leadingNat? rest).map (fun n => -(n : Int))
  | '+' :: rest => (leadingNat? rest).map (fun n => (n : Int))
  | l => (leadingNat? l).map (fun n => (n : Int))

/-- Models `String.prototype.split` with a single-character separator (as the
source uses with `"."` and `"e"`): every occurrence splits, empty pieces are
kept, and the empty string yields one empty piece. -/
def splitOnChar (sep : Char) : List Char → List (List Char)
  | [] => [[]]
  | c :: cs =>
    let rest := splitOnChar sep cs
    if c = sep then [] :: rest
    else
      match rest with
      | [] => [[c]]
      | r :: rs => (c :: r) :: rs

/-- Models `String.prototype.replace` with a single-character pattern (as the
source uses with `","` and `"."`): only the first occurrence is replaced. -/
def replaceFirstChar (pat : Char) (rep : String) : List Char → List Char
  | [] => []
  | c :: cs => if c = pat then rep.toList ++ cs else c :: replaceFirstChar pat rep cs

/-- Models `String.prototype.padEnd` with a single padding character: append
copies of `c` on the right up to length `n`. -/
def padEnd (s : String) (n : Nat) (c : Char) : String :=
  s ++ String.mk (List.replicate (n - s.length) c)

/-- `MAX_BYTES` in the source is `36`. -/
def MAX_BYTES : Nat := 36

/-- `PRECISION_BYTES` in the source is `18`. -/
def PRECISION_BYTES : Nat := 18

/-- `POSITIVE_INFINITY = BigInt("1" + "0".repeat(36))`, i.e. `10 ^ 36`. -/
def POSITIVE_INFINITY : Int := Int.ofNat (10 ^ MAX_BYTES)

/-- `NEGATIVE_INFINITY = BigInt("-1" + "0".repeat(36))`, i.e. `-(10 ^ 36)`. -/
def NEGATIVE_INFINITY : Int := -POSITIVE_INFINITY

/-- The value type: `_sign` (`true` = non-negative), `_value` (integer
magnitude as decimal text) and `_decimal` (fractional digits as text), as in
the TypeScript class fields. -/
structure BigNumber where
  sign : Bool
  value : String
  decimal : String
deriving Repr, DecidableEq

/-- The error taxonomy of the source: the constructor's NaN check
("Unrecognized number format"), its two magnitude-bound checks (`RangeError`
in the spec's taxonomy; the source distinguishes the "bigger than" and
"smaller than" messages) and `fromString`'s "cannot be parsed" failures
(`FormatError` in the spec's taxonomy). -/
inductive BNError where
  | unrecognized
  | rangePositive
  | rangeNegative
  | cannotParse
deriving Repr, DecidableEq

namespace BigNumber

/-- Successor of a digit character, modelling
`(Number.parseInt(c) + 1).toString()` in `roundString`.  In the source this
line only ever runs on a digit character other than `'9'` (the 9s were
consumed by the carry loop and the explicit `'9'` test), where it is the next
digit character. -/
def incDigit (c : Char) : Char := Char.ofNat (c.toNat + 1)

/-- The carry loop of `roundString`:
`while (index > 0 && number[index] === "9") { number[index] = "0"; index--; }`.
Returns the updated character array together with the final `index`. -/
def carryNines : List Char → Nat → (List Char × Nat)
  | arr, 0 => (arr, 0)
  | arr, i + 1 =>
    if arr.getD (i + 1) '0' = '9' then carryNines (arr.set (i + 1) '0') i
    else (arr, i + 1)

/-- The `lastDigit >= 5` tail of `roundString` (everything from
`let index = precision - 1;` on).  For `precision = 0` the source computes
`index = -1`, skips both the loop and the `index === 0` branch, assigns to
the out-of-range property `number[-1]` (which `join` ignores) and returns
`number.slice(0, 0).join("")`, i.e. the empty string. -/
def roundStringCarry (number : List Char) (precision : Nat) : String :=
  match precision with
  | 0 => ""
  | p + 1 =>
    let s := carryNines number p
    let arr := s.1
    let index := s.2
    if index = 0 then
      if arr.getD 0 '0' = '9' then
        "1" ++ String.mk (arr.set 0 '0')
      else
        String.mk (arr.set 0 (incDigit (arr.getD 0 '0')))
    else
      String.mk ((arr.set index (incDigit (arr.getD index '0'))).take (p + 1))

/-- `BigNumber.roundString(_number, precision)`: round-half-up of a digit
string at the cut index `precision`.  Note that in the two branches where the
carry reaches index `0`, the source returns the *whole* updated array (for
`"1" + number.join("")` even prepending a digit) rather than the first
`precision` characters — only the no-carry and interior-carry branches
truncate.  The `none` arm of the `digitVal?` match models
`Number.parseInt(number[precision])` being NaN, for which `NaN < 5` is false
and the carry path runs. -/
def roundString (n : String) (precision : Nat) : String :=
  if n.length ≤ precision then n
  else
    let number := n.toList
    match number.get? precision with
    | none => String.mk number
    | some c =>
      match digitVal? c with
      | some dv =>
        if dv < 5 then String.mk (number.take precision)
        else roundStringCarry number precision
      | none => roundStringCarry number precision

/-- `BigNumber.widenScientificNotation(number)` from the source (shortened
name).  Only the lowercase marker `"e"` is recognised (`number.includes("e")`);
the mantissa and exponent are the first two pieces of `split("e")`; an empty
exponent falls back to `"0"` (`exponent || "0"`); the decimal separator is
removed from the mantissa (first occurrence only, as JavaScript `replace`
does); a NaN exponent (`none` arm) fails the `exponentValue < 0` test and
appends `"0".repeat(NaN)`, i.e. nothing. -/
def widenSci (number : String) : String :=
  if !(number.toList.contains 'e') then number
  else
    let parts := splitOnChar 'e' number.toList
    let mantissa := parts.headD []
    let exponent := parts.getD 1 []
    let expChars := if exponent.isEmpty then ['0'] else exponent
    let mantissaDigits := replaceFirstChar '.' "" mantissa
    match jsParseInt? expChars with
    | some k =>
      if k < 0 then
        "0." ++ String.mk (List.replicate ((-k).toNat - 1) '0')
          ++ String.mk mantissaDigits
      else String.mk mantissaDigits ++ String.mk (List.replicate k.toNat '0')
    | none => String.mk mantissaDigits

/-- Decimal rendering of an integer, as `BigInt.prototype.toString` produces
it: plain digits, `-` prefix for negative values, `"0"` for zero. -/
def intToDecimal (i : Int) : String :=
  if i < 0 then "-" ++ Nat.repr i.natAbs else Nat.repr i.natAbs

/-- The body of the private constructor after both strings converted
successfully, with `v = BigInt(value)` and `d = BigInt(decimal)`.  The source
computes `newDecimal = roundString(decimal, PRECISION_BYTES)` once; here the
call is duplicated in the test and the branch. -/
def mkChecked (sign : Bool) (value decimal : String) (v d : Int) :
    Except BNError BigNumber :=
  if v > POSITIVE_INFINITY ∨ (v = POSITIVE_INFINITY ∧ d ≠ 0) then
    .error .rangePositive
  else if v < NEGATIVE_INFINITY ∨ (v = NEGATIVE_INFINITY ∧ d ≠ 0) then
    .error .rangeNegative
  else if PRECISION_BYTES ≤ decimal.length then
    if PRECISION_BYTES < (roundString decimal PRECISION_BYTES).length then
      .ok ⟨sign, intToDecimal (v + 1), String.mk (List.replicate PRECISION_BYTES '0')⟩
    else .ok ⟨sign, value, roundString decimal PRECISION_BYTES⟩
  else .ok ⟨sign, value, padEnd decimal PRECISION_BYTES '0'⟩

/-- The private constructor `new BigNumber(sign, value, decimal)`: the NaN
check on both strings (its failure is the "Unrecognized number format"
error), then the bound checks and the decimal-field normalisation of
`mkChecked`. -/
def construct (sign : Bool) (value decimal : String) : Except BNError BigNumber :=
  match jsStrToInt? value with
  | none => .error .unrecognized
  | some v =>
    match jsStrToInt? decimal with
    | none => .error .unrecognized
    | some d => mkChecked sign value decimal v d

/-- `BigNumber.fromBigInt(value)`. -/
def fromBigInt (v : Int) : Except BNError BigNumber :=
  construct (decide (0 ≤ v)) (intToDecimal (if v < 0 then -v else v)) "0"

/-- `BigNumber.fromString(value)`.  The source replaces the first `","` by
`"."`, widens scientific form, rejects text that splits on `"."` into more
than two pieces, takes a leading `"-"` as the sign (`numberAsString[0] !==
"-"`, true for the empty string), checks the remainder against
`/^[\d.]+$/` (at least one character, all digits or dots), splits on `"."`
and hands the two pieces to the constructor — the second piece defaults to
`"0"` only when it is absent (destructuring default), an empty piece stays
empty.  The source's `valueAsString === undefined` guard is unreachable
because `split` always yields at least one piece; it is folded into
`headD`. -/
def fromString (value : String) : Except BNError BigNumber :=
  let numberAsString := widenSci (String.mk (replaceFirstChar ',' "." value.toList))
  if 2 < (splitOnChar '.' numberAsString.toList).length then .error .cannotParse
  else
    let sign : Bool := !(numberAsString.toList.head? == some '-')
    let cleanedNumber := if sign then numberAsString.toList else numberAsString.toList.drop 1
    if cleanedNumber.isEmpty then .error .cannotParse
    else if !(cleanedNumber.all fun c => c.isDigit || c == '.') then .error .cannotParse
    else
      let parts := splitOnChar '.' cleanedNumber
      match parts.getD 1 ['0'] with
      | decimalChars => construct sign (String.mk (parts.headD [])) (String.mk decimalChars)

/-- `toString()`: `"[-]<value>.<decimal>"` exactly as stored. -/
def toString (a : BigNumber) : String :=
  (if a.sign then "" else "-") ++ a.value ++ "." ++ a.decimal

/-- `toInteger()`: sign prefix plus
`roundString(this._value + (this._decimal[0] ?? ""), this._value.length)`. -/
def toInteger (a : BigNumber) : String :=
  (if a.sign then "" else "-") ++
    roundString
      (a.value ++ (match a.decimal.toList.head? with
        | some c => String.mk [c]
        | none => ""))
      a.value.length

/-- `isPositive()`: the stored sign flag. -/
def isPositive (a : BigNumber) : Bool := a.sign

/-- `equals(other)`: structural equality of the three stored fields. -/
def equals (a other : BigNumber) : Bool :=
  a.sign == other.sign && a.value == other.value && a.decimal == other.decimal

/-- `gt(other)`.  The source binds
`valueComparison = BigInt(this._value) - BigInt(other._value)` once; the
subtraction is duplicated here. -/
def gt (a other : BigNumber) : Bool :=
  if a.sign ≠ other.sign then a.sign
  else if jsBigIntD a.value - jsBigIntD other.value ≠ 0 then
    (if a.sign then decide (0 < jsBigIntD a.value - jsBigIntD other.value)
     else decide (jsBigIntD a.value - jsBigIntD other.value < 0))
  else if a.sign then decide (jsBigIntD other.decimal < jsBigIntD a.decimal)
  else decide (jsBigIntD a.decimal < jsBigIntD other.decimal)

/-- `abs()`: reconstruct with `sign = true`. -/
def abs (a : BigNumber) : Except BNError BigNumber :=
  construct true a.value a.decimal

/-- `neg()`: reconstruct with the sign flipped. -/
def neg (a : BigNumber) : Except BNError BigNumber :=
  construct (!a.sign) a.value a.decimal

/-- The same-sign branch of `add`: integer magnitudes are summed as
`BigInt`s, fractional fields are summed as `BigInt`s and passed through
`roundString(·, PRECISION_BYTES)`, and the result is rebuilt with the common
sign. -/
def addSameSign (a other : BigNumber) : Except BNError BigNumber :=
  construct a.sign
    (intToDecimal (jsBigIntD a.value + jsBigIntD other.value))
    (roundString (intToDecimal (jsBigIntD a.decimal + jsBigIntD other.decimal))
      PRECISION_BYTES)

/-- `add(other)`, with an explicit recursion budget in place of the source's
general recursion.  The source's only self-call is
`return other.add(this.neg())` in the different-sign, `|this| ≤ |other|`
case; there `this.neg()` has the same sign as `other`, so the recursive call
takes the same-sign branch and never recurses again — a budget of `1`
(see `add`) is exact, and the `0` arm is unreachable. -/
def addFuel : Nat → BigNumber → BigNumber → Except BNError BigNumber
  | fuel, a, other =>
    if a.sign == other.sign then addSameSign a other
    else do
      let aAbs ← abs a
      let otherAbs ← abs other
      if gt aAbs otherAbs then
        construct a.sign
          (intToDecimal (jsBigIntD a.value - jsBigIntD other.value))
          (intToDecimal (jsBigIntD a.decimal - jsBigIntD other.decimal))
      else
        match fuel with
        | 0 => .error .unrecognized
        | f + 1 => do
          let na ← neg a
          addFuel f other na

/-- `add(other)` of the source. -/
def add (a other : BigNumber) : Except BNError BigNumber := addFuel 1 a other

/-- `sub(other) = this.add(other.neg())`. -/
def sub (a other : BigNumber) : Except BNError BigNumber := do
  let no ← neg other
  add a no

/-- `div(other)`: the source body is the stub `return this;` (its comment
reads "Division logic (not implemented fully)") — the divisor is ignored and
the receiver is returned unchanged. -/
def div (a _other : BigNumber) : BigNumber := a

/-- `inv() = BigNumber.fromBigInt(1n).div(this)`. -/
def inv (a : BigNumber) : Except BNError BigNumber := do
  let one ← fromBigInt 1
  .ok (div one a)

end BigNumber

/-! ## Helper lemmas shared by the claim theorems -/

/-- Reduce the private constructor to its checked body once both field
strings convert. -/
theorem construct_eq_mkChecked {sign : Bool} {value decimal : String} {v d : Int}
    (hv : jsStrToInt? value = some v) (hd : jsStrToInt? decimal = some d) :
    BigNumber.construct sign value decimal = BigNumber.mkChecked sign value decimal v d := by
  unfold BigNumber.construct
  rw [hv, hd]

/-- `equals` is structural equality of the three fields. -/
theorem equals_eq_true_iff (a b : BigNumber) :
    BigNumber.equals a b = true ↔
      (a.sign = b.sign ∧ a.value = b.value ∧ a.decimal = b.decimal) := by
  simp [BigNumber.equals, and_assoc]

/-- `gt` on two non-negative values compares integer magnitudes, then
fractional fields. -/
theorem gt_pos_iff (a b : BigNumber) (hs : a.sign = b.sign) (ha : a.sign = true) :
    BigNumber.gt a b = true ↔
      (jsBigIntD b.value < jsBigIntD a.value ∨
        (jsBigIntD a.value = jsBigIntD b.value ∧
          jsBigIntD b.decimal < jsBigIntD a.decimal)) := by
  unfold BigNumber.gt
  rw [if_neg (by simp [hs])]
  by_cases hne : jsBigIntD a.value - jsBigIntD b.value ≠ 0
  · rw [if_pos hne, if_pos ha]
    simp only [decide_eq_true_eq]
    constructor
    · intro h; omega
    · intro h; omega
  · rw [if_neg hne, if_pos ha]
    simp only [decide_eq_true_eq]
    constructor
    · intro h; omega
    · intro h; omega

/-- `gt` on two negative values inverts both comparisons. -/
theorem gt_negsign_iff (a b : BigNumber) (hs : a.sign = b.sign) (ha : a.sign = false) :
    BigNumber.gt a b = true ↔
      (jsBigIntD a.value < jsBigIntD b.value ∨
        (jsBigIntD a.value = jsBigIntD b.value ∧
          jsBigIntD a.decimal < jsBigIntD b.decimal)) := by
  unfold BigNumber.gt
  rw [if_neg (by simp [hs])]
  by_cases hne : jsBigIntD a.value - jsBigIntD b.value ≠ 0
  · rw [if_pos hne, if_neg (by simp [ha])]
    simp only [decide_eq_true_eq]
    constructor
    · intro h; omega
    · intro h; omega
  · rw [if_neg hne, if_neg (by simp [ha])]
    simp only [decide_eq_true_eq]
    constructor
    · intro h; omega
    · intro h; omega

/-! ## Claim C4 -/

/-- Claim C4 (amended): comparison is a *partial* trichotomy.  For all values
`A`, `B`, at most one of `A.gt(B)`, `A.equals(B)`, `B.gt(A)` holds; and
exactly one holds whenever the stored field strings are numerically faithful
for the pair — i.e. when equal `BigInt` values of the integer-magnitude
strings (resp. the fractional strings) force equal strings.  The claim's
"exactly one" fails for numerically equal values written differently, such
as leading zeros in the integer part (see the counterexample). -/
theorem gt_equals_partial_trichotomy (a b : BigNumber) :
    (¬(BigNumber.gt a b = true ∧ BigNumber.equals a b = true)
      ∧ ¬(BigNumber.gt a b = true ∧ BigNumber.gt b a = true)
      ∧ ¬(BigNumber.equals a b = true ∧ BigNumber.gt b a = true))
    ∧ ((jsBigIntD a.value = jsBigIntD b.value → a.value = b.value) →
        (jsBigIntD a.decimal = jsBigIntD b.decimal → a.decimal = b.decimal) →
        (BigNumber.gt a b = true ∨ BigNumber.equals a b = true ∨
          BigNumber.gt b a = true)) := by
  by_cases hs : a.sign = b.sign
  · -- same sign: compare numerically, by the sign's direction
    have hbs : b.sign = a.sign := hs.symm
    have he_of : BigNumber.equals a b = true →
        jsBigIntD a.value = jsBigIntD b.value ∧
          jsBigIntD a.decimal = jsBigIntD b.decimal := by
      intro h
      obtain ⟨-, h2, h3⟩ := (equals_eq_true_iff a b).mp h
      exact ⟨by rw [h2], by rw [h3]⟩
    cases ha : a.sign
    · -- both negative
      have hb : b.sign = false := by rw [hbs, ha]
      have g1 := gt_negsign_iff a b hs ha
      have g2 := gt_negsign_iff b a hs.symm hb
      constructor
      · refine ⟨?_, ?_, ?_⟩
        · rintro ⟨h1, h2⟩
          obtain ⟨e1, e2⟩ := he_of h2
          rcases g1.mp h1 with h | ⟨h, h'⟩ <;> omega
        · rintro ⟨h1, h2⟩
          rcases g1.mp h1 with h | ⟨h, h'⟩ <;>
            rcases g2.mp h2 with h'' | ⟨h'', h'''⟩ <;> omega
        · rintro ⟨h1, h2⟩
          obtain ⟨e1, e2⟩ := he_of h1
          rcases g2.mp h2 with h | ⟨h, h'⟩ <;> omega
      · intro hcv hcd
        rcases lt_trichotomy (jsBigIntD a.value) (jsBigIntD b.value) with hv | hv | hv
        · exact Or.inl (g1.mpr (Or.inl hv))
        · rcases lt_trichotomy (jsBigIntD a.decimal) (jsBigIntD b.decimal) with hd | hd | hd
          · exact Or.inl (g1.mpr (Or.inr ⟨hv, hd⟩))
          · exact Or.inr (Or.inl ((equals_eq_true_iff a b).mpr ⟨hs, hcv hv, hcd hd⟩))
          · exact Or.inr (Or.inr (g2.mpr (Or.inr ⟨hv.symm, hd⟩)))
        · exact Or.inr (Or.inr (g2.mpr (Or.inl hv)))
    · -- both non-negative
      have hb : b.sign = true := by rw [hbs, ha]
      have g1 := gt_pos_iff a b hs ha
      have g2 := gt_pos_iff b a hs.symm hb
      constructor
      · refine ⟨?_, ?_, ?_⟩
        · rintro ⟨h1, h2⟩
          obtain ⟨e1, e2⟩ := he_of h2
          rcases g1.mp h1 with h | ⟨h, h'⟩ <;> omega
        · rintro ⟨h1, h2⟩
          rcases g1.mp h1 with h | ⟨h, h'⟩ <;>
            rcases g2.mp h2 with h'' | ⟨h'', h'''⟩ <;> omega
        · rintro ⟨h1, h2⟩
          obtain ⟨e1, e2⟩ := he_of h1
          rcases g2.mp h2 with h | ⟨h, h'⟩ <;> omega
      · intro hcv hcd
        rcases lt_trichotomy (jsBigIntD b.value) (jsBigIntD a.value) with hv | hv | hv
        · exact Or.inl (g1.mpr (Or.inl hv))
        · rcases lt_trichotomy (jsBigIntD b.decimal) (jsBigIntD a.decimal) with hd | hd | hd
          · exact Or.inl (g1.mpr (Or.inr ⟨hv.symm, hd⟩))
          · exact Or.inr (Or.inl ((equals_eq_true_iff a b).mpr ⟨hs, hcv hv.symm, hcd hd.symm⟩))
          · exact Or.inr (Or.inr (g2.mpr (Or.inr ⟨hv, hd⟩)))
        · exact Or.inr (Or.inr (g2.mpr (Or.inl hv)))
  · -- signs differ: the non-negative operand is greater, `equals` fails
    have hs' : b.sign ≠ a.sign := fun h => hs h.symm
    have g1 : BigNumber.gt a b = a.sign := by
      unfold BigNumber.gt; rw [if_pos hs]
    have g2 : BigNumber.gt b a = b.sign := by
      unfold BigNumber.gt; rw [if_pos hs']
    have he : BigNumber.equals a b = false := by
      cases hq : BigNumber.equals a b with
      | false => rfl
      | true => exact absurd ((equals_eq_true_iff a b).mp hq).1 hs
    constructor
    · refine ⟨?_, ?_, ?_⟩ <;> rintro ⟨h1, h2⟩ <;> simp_all
    · intro _ _
      rw [g1, g2, he]
      cases hA : a.sign <;> cases hB : b.sign <;> simp_all

/-- Claim C4 (counterexample): `fromString("00")` and `fromString("0")` are
numerically equal but structurally distinct; none of `gt`, `equals`, `gt`
holds between them, so the claimed "exactly one" trichotomy fails. -/
theorem gt_equals_trichotomy_cex :
    BigNumber.fromString "00" = .ok ⟨true, "00", "000000000000000000"⟩
    ∧ BigNumber.fromString "0" = .ok ⟨true, "0", "000000000000000000"⟩
    ∧ BigNumber.gt ⟨true, "00", "000000000000000000"⟩
        ⟨true, "0", "000000000000000000"⟩ = false
    ∧ BigNumber.equals ⟨true, "00", "000000000000000000"⟩
        ⟨true, "0", "000000000000000000"⟩ = false
    ∧ BigNumber.gt ⟨true, "0", "000000000000000000"⟩
        ⟨true, "00", "000000000000000000"⟩ = false :=
  ⟨rfl, rfl, by decide, by decide, by decide⟩

/-- Claim C4 (witness for the amended theorem): on the canonical pair `1`,
`2` the trichotomy is exhaustive. -/
theorem gt_equals_partial_trichotomy_witness :
    BigNumber.gt ⟨true, "1", "000000000000000000"⟩
        ⟨true, "2", "000000000000000000"⟩ = true
    ∨ BigNumber.equals ⟨true, "1", "000000000000000000"⟩
        ⟨true, "2", "000000000000000000"⟩ = true
    ∨ BigNumber.gt ⟨true, "2", "000000000000000000"⟩
        ⟨true, "1", "000000000000000000"⟩ = true :=
  (gt_equals_partial_trichotomy ⟨true, "1", "000000000000000000"⟩
      ⟨true, "2", "000000000000000000"⟩).2
    (fun h => absurd h (by decide)) (fun _ => rfl)

/-! ## Claim C9 -/

/-- Claim C9: the bound clamp of the private constructor.  With integer
magnitude exactly `10^36`: construction succeeds when the fractional source
is numerically zero and fails with the range error otherwise; any magnitude
beyond `10^36` fails with the range error, for either sign (the magnitude
string is unsigned, so the positive-bound check is the one that fires). -/
theorem construct_bound_clamp (sign : Bool) (value decimal : String) (v d : Int)
    (hv : jsStrToInt? value = some v) (hd : jsStrToInt? decimal = some d) :
    (v = POSITIVE_INFINITY → d = 0 →
      ∃ bn, BigNumber.construct sign value decimal = .ok bn)
    ∧ (v = POSITIVE_INFINITY → d ≠ 0 →
      BigNumber.construct sign value decimal = .error .rangePositive)
    ∧ (POSITIVE_INFINITY < v →
      BigNumber.construct sign value decimal = .error .rangePositive) := by
  have hNP : NEGATIVE_INFINITY < POSITIVE_INFINITY := by decide
  rw [construct_eq_mkChecked hv hd]
  refine ⟨?_, ?_, ?_⟩
  · intro h1 h2
    unfold BigNumber.mkChecked
    rw [if_neg (by omega), if_neg (by omega)]
    by_cases hl : PRECISION_BYTES ≤ decimal.length
    · rw [if_pos hl]
      by_cases hr : PRECISION_BYTES < (BigNumber.roundString decimal PRECISION_BYTES).length
      · rw [if_pos hr]; exact ⟨_, rfl⟩
      · rw [if_neg hr]; exact ⟨_, rfl⟩
    · rw [if_neg hl]; exact ⟨_, rfl⟩
  · intro h1 h2
    unfold BigNumber.mkChecked
    rw [if_pos (Or.inr ⟨h1, h2⟩)]
  · intro h1
    unfold BigNumber.mkChecked
    rw [if_pos (Or.inl h1)]

/-- Claim C9 (witness): at the sentinel `10^36` with zero fraction the
constructor succeeds (either sign); with fraction `5` at the sentinel, or at
magnitude `10^37`, it fails with the range error. -/
theorem construct_bound_clamp_witness :
    (∃ bn, BigNumber.construct true
      "1000000000000000000000000000000000000" "0" = .ok bn)
    ∧ (∃ bn, BigNumber.construct false
      "1000000000000000000000000000000000000" "0" = .ok bn)
    ∧ BigNumber.construct false
      "1000000000000000000000000000000000000" "5" = .error .rangePositive
    ∧ BigNumber.construct true
      "10000000000000000000000000000000000000" "0" = .error .rangePositive :=
  ⟨(construct_bound_clamp true "1000000000000000000000000000000000000" "0"
      POSITIVE_INFINITY 0 (by decide) (by decide)).1 rfl rfl,
   (construct_bound_clamp false "1000000000000000000000000000000000000" "0"
      POSITIVE_INFINITY 0 (by decide) (by decide)).1 rfl rfl,
   (construct_bound_clamp false "1000000000000000000000000000000000000" "5"
      POSITIVE_INFINITY 5 (by decide) (by decide)).2.1 rfl (by decide),
   (construct_bound_clamp true "10000000000000000000000000000000000000" "0"
      (10 * POSITIVE_INFINITY) 0 (by decide) (by decide)).2.2 (by decide)⟩

/-! ## Claim C8 -/

/-- Claim C8 (counterexample): the fractional source is *right*-padded
(`padEnd`), not left-padded — `fromString("0.5")` stores
`"500000000000000000"` and prints `"0.500000000000000000"`, not the claimed
`"000000000000000005"` / `"0.000000000000000005"`. -/
theorem fraction_pad_cex :
    BigNumber.fromString "0.5" = .ok ⟨true, "0", "500000000000000000"⟩
    ∧ BigNumber.toString ⟨true, "0", "500000000000000000"⟩ = "0.500000000000000000"
    ∧ "500000000000000000" ≠ "000000000000000005"
    ∧ "0.500000000000000000" ≠ "0.000000000000000005" :=
  ⟨rfl, rfl, by decide, by decide⟩

/-- Claim C8 (amended): whenever the fractional source of a construction has
fewer than 18 digits (and the magnitude is strictly inside the bound), the
stored `fractionalDigits` equal the source *right*-padded with zeros to
length 18. -/
theorem fraction_rightpad (sign : Bool) (value decimal : String) (v d : Int)
    (hv : jsStrToInt? value = some v) (hd : jsStrToInt? decimal = some d)
    (hlen : decimal.length < PRECISION_BYTES)
    (hlow : NEGATIVE_INFINITY < v) (hhigh : v < POSITIVE_INFINITY) :
    BigNumber.construct sign value decimal
      = .ok ⟨sign, value, padEnd decimal PRECISION_BYTES '0'⟩ := by
  rw [construct_eq_mkChecked hv hd]
  unfold BigNumber.mkChecked
  rw [if_neg (by omega), if_neg (by omega), if_neg (by omega)]

/-- Claim C8 (witness): `fromString("0.5")` reaches the constructor with
fractional source `"5"`, which is right-padded to `"500000000000000000"`. -/
theorem fraction_rightpad_witness :
    BigNumber.construct true "0" "5"
      = .ok ⟨true, "0", padEnd "5" PRECISION_BYTES '0'⟩
    ∧ padEnd "5" PRECISION_BYTES '0' = "500000000000000000" :=
  ⟨fraction_rightpad true "0" "5" 0 5 (by decide) (by decide) (by decide)
      (by decide) (by decide), rfl⟩

/-! ## Claim C1 -/

/-- Claim C1: `add` does not represent the exact sum when the fractional sum
overflows 18 digits.  `0.9 + 0.9` has exact sum `1.8`, well inside the
bound, but the 19-digit fractional sum `1800000000000000000` is rounded by
`roundString` to its *first* 18 digits — dividing it by ten instead of
carrying into the integer magnitude — so the code returns
`0.180000000000000000`. -/
theorem add_fraction_overflow_bug :
    BigNumber.fromString "0.9" = .ok ⟨true, "0", "900000000000000000"⟩
    ∧ BigNumber.add ⟨true, "0", "900000000000000000"⟩
        ⟨true, "0", "900000000000000000"⟩
        = .ok ⟨true, "0", "180000000000000000"⟩
    ∧ BigNumber.toString ⟨true, "0", "180000000000000000"⟩
        = "0.180000000000000000" :=
  ⟨rfl, rfl, rfl⟩

/-! ## Claim C2 -/

/-- Claim C2: the additive-inverse law fails.  For `A = fromBigInt 5`,
`A.add(A.neg())` takes the different-sign branch with `|A| = |A.neg()|`,
recurses as `other.add(this.neg())` — which negates the *already added*
operand instead of restoring it — and lands in the same-sign branch
computing `-(5 + 5) = -10`, not `0`. -/
theorem additive_inverse_bug :
    BigNumber.fromBigInt 5 = .ok ⟨true, "5", "000000000000000000"⟩
    ∧ BigNumber.neg ⟨true, "5", "000000000000000000"⟩
        = .ok ⟨false, "5", "000000000000000000"⟩
    ∧ BigNumber.add ⟨true, "5", "000000000000000000"⟩
        ⟨false, "5", "000000000000000000"⟩
        = .ok ⟨false, "10", "000000000000000000"⟩
    ∧ BigNumber.fromBigInt 0 = .ok ⟨true, "0", "000000000000000000"⟩
    ∧ BigNumber.equals ⟨false, "10", "000000000000000000"⟩
        ⟨true, "0", "000000000000000000"⟩ = false :=
  ⟨rfl, rfl, rfl, rfl, by decide⟩

/-! ## Claim C3 -/

/-- Claim C3 (counterexample): there is no sign normalization —
`fromString("-0.0")` stores `sign = false`, so `isPositive()` returns
`false` (the claim says `true`) and `toString()` renders
`"-0.000000000000000000"` (the claim says zero is never rendered with a
minus sign). -/
theorem neg_zero_sign_cex :
    BigNumber.fromString "-0.0" = .ok ⟨false, "0", "000000000000000000"⟩
    ∧ BigNumber.isPositive ⟨false, "0", "000000000000000000"⟩ = false
    ∧ BigNumber.toString ⟨false, "0", "000000000000000000"⟩
        = "-0.000000000000000000" :=
  ⟨rfl, rfl, rfl⟩

/-- Claim C3 (amended): zero keeps the textual sign of its source.
`fromString("-0.0")` yields a *negative* zero (`isPositive() = false`,
rendered `"-0.000000000000000000"`), while zero built from a non-negative
source such as `fromBigInt 0` has `sign = true` and is rendered without a
minus sign. -/
theorem neg_zero_sign_amended :
    BigNumber.fromString "-0.0" = .ok ⟨false, "0", "000000000000000000"⟩
    ∧ BigNumber.isPositive ⟨false, "0", "000000000000000000"⟩ = false
    ∧ BigNumber.toString ⟨false, "0", "000000000000000000"⟩
        = "-0.000000000000000000"
    ∧ BigNumber.fromBigInt 0 = .ok ⟨true, "0", "000000000000000000"⟩
    ∧ BigNumber.isPositive ⟨true, "0", "000000000000000000"⟩ = true
    ∧ BigNumber.toString ⟨true, "0", "000000000000000000"⟩
        = "0.000000000000000000" :=
  ⟨rfl, rfl, rfl, rfl, rfl, rfl⟩

/-! ## Claim C5 -/

/-- Claim C5: `div` is an unimplemented stub that *does* silently return a
value in place of a DivisionByZero failure: `div` ignores the divisor and
returns the receiver, so `fromBigInt(1).div(fromBigInt(0))` is `1` and
`inv` of zero is `1`. -/
theorem div_zero_stub :
    BigNumber.fromBigInt 1 = .ok ⟨true, "1", "000000000000000000"⟩
    ∧ BigNumber.fromBigInt 0 = .ok ⟨true, "0", "000000000000000000"⟩
    ∧ BigNumber.div ⟨true, "1", "000000000000000000"⟩
        ⟨true, "0", "000000000000000000"⟩ = ⟨true, "1", "000000000000000000"⟩
    ∧ BigNumber.inv ⟨true, "0", "000000000000000000"⟩
        = .ok ⟨true, "1", "000000000000000000"⟩ :=
  ⟨rfl, rfl, rfl, rfl⟩

/-! ## Claim C6 -/

/-- Claim C6: `toInteger()` mishandles the carry once it cascades to index
`0`: the branches of `roundString` that fire there return the whole digit
array instead of slicing it to `precision` digits.  For `999.5` the code
returns `"10005"` (claimed: `"1000"`); for `1.5` it returns `"25"`
(round-half-up gives `"2"`). -/
theorem toInteger_carry_bug :
    BigNumber.fromString "999.5" = .ok ⟨true, "999", "500000000000000000"⟩
    ∧ BigNumber.toInteger ⟨true, "999", "500000000000000000"⟩ = "10005"
    ∧ BigNumber.fromString "1.5" = .ok ⟨true, "1", "500000000000000000"⟩
    ∧ BigNumber.toInteger ⟨true, "1", "500000000000000000"⟩ = "25" :=
  ⟨rfl, rfl, rfl, rfl⟩

/-! ## Claim C7 -/

/-- Claim C7 (counterexample): for a mantissa with fractional digits and a
positive exponent the decimal point is *not* shifted right by the exponent:
`"1.5e2"` parses as `1500` (the separator is removed — a factor of ten — and
then two zeros are appended), not the claimed `150`. -/
theorem sci_exponent_cex :
    (BigNumber.fromString "1.5e2").map BigNumber.toString
      = .ok "1500.000000000000000000"
    ∧ "1500.000000000000000000" ≠ "150.000000000000000000" :=
  ⟨rfl, by decide⟩

/-- Claim C7 (amended): scientific notation is recognised only with the
lowercase marker `e`; `"2E6"` fails the character check.  For a non-negative
exponent `k` the mantissa's separator is removed and `k` zeros are appended
(so `"2e6"` parses as `2000000` but `"1.5e2"` parses as `1500`); for a
negative exponent `-k` the separator-stripped digits are prefixed with
`k - 1` zeros after `"0."` (so `"1.5e-7"` parses as `0.00000015` — a left
shift by `k` only when the mantissa has a single integer digit). -/
theorem sci_exponent_amended :
    BigNumber.widenSci "1.5e-7" = "0.00000015"
    ∧ (BigNumber.fromString "1.5e-7").map BigNumber.toString
        = .ok "0.000000150000000000"
    ∧ BigNumber.widenSci "2e6" = "2000000"
    ∧ (BigNumber.fromString "2e6").map BigNumber.toString
        = .ok "2000000.000000000000000000"
    ∧ BigNumber.widenSci "1.5e2" = "1500"
    ∧ (BigNumber.fromString "1.5e2").map BigNumber.toString
        = .ok "1500.000000000000000000"
    ∧ BigNumber.fromString "2E6" = .error .cannotParse :=
  ⟨rfl, rfl, rfl, rfl, rfl, rfl, rfl⟩

/-! ## Claim C10 -/

/-- Claim C10: `fromString(".")` is accepted: `"."` passes the `[\d.]+`
check, splits into two empty pieces, and `Number("")`/`BigInt("")` convert
the empty string to `0`, so construction succeeds with an *empty* integer
text.  The result prints as `".000000000000000000"` and is not structurally
equal to `fromBigInt 0` (whose integer text is `"0"`). -/
theorem dot_input_accepted :
    BigNumber.fromString "." = .ok ⟨true, "", "000000000000000000"⟩
    ∧ BigNumber.toString ⟨true, "", "000000000000000000"⟩
        = ".000000000000000000"
    ∧ BigNumber.fromBigInt 0 = .ok ⟨true, "0", "000000000000000000"⟩
    ∧ BigNumber.equals ⟨true, "", "000000000000000000"⟩
        ⟨true, "0", "000000000000000000"⟩ = false :=
  ⟨rfl, rfl, rfl, by decide⟩
